import Mathlib

/-!
# SysTimer — shallow embedding and verification

A shallow embedding of the SysTimer Arduino timer-abstraction library
(`src/SysTimer.h` plus the two unnamed revision files), together with
theorems settling the frozen claims about it.

Modelling conventions:
* A timer object (`SysTimerBase` and its three derived classes) is one
  record `SysTimerState`; each C++ member function becomes a Lean
  function from the old state to the new state plus its return value.
* Machine integers are `Nat` with explicit reductions modulo `2^32`
  (`uint32_t`) or `2^16` (`uint16_t`) exactly where the C code converts.
* Calls into the vendor SDK / hardware (`os_timer_arm`, `setTimerInterval`,
  `DueTimer::start`) are modelled by returning the argument values the
  code passes down, so theorems can speak about what was programmed.
* Callback function pointers are identifiers `Option Nat` (`none` is
  `nullptr`); the `void*` callback argument is an opaque `Nat`.
* The `double` arithmetic of the AVR interval encoder is modelled with
  exact rationals `ℚ`; the counterexamples drawn from it are robust
  (the gaps involved are far larger than any IEEE-754 rounding error of
  these few operations on values of this magnitude).
-/

/-- The `Platform` enumeration of `SysTimer.h`. -/
inductive Platform
  | T_ESP
  | T_AVR
  | T_SAM
deriving DecidableEq

/-- 2^32, the modulus of `uint32_t` values. -/
def UINT32_MOD : Nat := 4294967296

/-- 2^16, the modulus of `uint16_t` values. -/
def UINT16_MOD : Nat := 65536

/-- The state of one timer object: the fields of `SysTimerBase` plus the
`_current` slot index of the AVR/SAM derived classes.  Defaults are the
C++ member initializers.  `_platform` has no initializer in the source
(it is indeterminate for a zombie); the model keeps the default, which
no claim observes on a zombie. -/
structure SysTimerState where
  platform : Platform := Platform.T_AVR
  valid : Bool := false
  armed : Bool := false
  interval : Nat := 0
  repeating : Bool := false
  oneshot : Bool := false
  callback : Option Nat := none
  callbackArg : Nat := 0
  current : Int := -1
deriving DecidableEq

/-- `SysTimerBase::setInterval(uint32_t interval)`: stores the argument
unconditionally (no validity check, no clamping).  The `% UINT32_MOD`
models the `uint32_t` parameter type. -/
def setInterval (interval : Nat) (t : SysTimerState) : SysTimerState :=
  { t with interval := interval % UINT32_MOD }

/-- `SysTimerBase::getInterval()`: returns the stored `_interval`. -/
def getInterval (t : SysTimerState) : Nat :=
  t.interval

/-- `SysTimerBase::isRepeating()`: returns the stored `_repeating`. -/
def isRepeating (t : SysTimerState) : Bool :=
  t.repeating

/-- `ESPTimer::ESPTimer()`: always valid (the ESP backend has no
capacity limit). -/
def ESPTimer.construct : SysTimerState :=
  { platform := Platform.T_ESP, valid := true }

/-- `ESPTimer::attachInterrupt(isr, callbackArg)`: stores `_callback`
and hands `isr`/`callbackArg` to the vendor call `os_timer_setfn`
(the member `_callbackArg` is not written on this backend); always
returns `true`. -/
def ESPTimer.attachInterrupt (isr : Nat) (callbackArg : Nat)
    (t : SysTimerState) : SysTimerState × Bool :=
  let _ := callbackArg
  ({ t with callback := some isr }, true)

/-- `ESPTimer::arm(repeat)`.  The middle component is the
`(milliseconds, repeat)` pair passed to the vendor call `os_timer_arm`
(`none` when the guard fails and no vendor call is made); the last
component is the returned `_armed`.  Note the source sets
`_armed = repeat ? true : false` even on success, so a successful
one-shot arm reports `_armed = false` and returns `false`. -/
def ESPTimer.arm (rep : Bool) (t : SysTimerState) :
    SysTimerState × Option (Nat × Bool) × Bool :=
  if t.callback.isSome ∧ 0 < t.interval then
    let callMs := if 5 ≤ t.interval then t.interval else 5
    let t1 := { t with repeating := rep, armed := rep }
    (t1, some (callMs, rep), t1.armed)
  else
    ({ t with armed := false }, none, false)

/-- `ESPTimer::disarm()`: calls `os_timer_disarm`, clears `_armed` only
(`_repeating` and `_oneshot` are left as they are) and returns `true`. -/
def ESPTimer.disarm (t : SysTimerState) : SysTimerState × Bool :=
  ({ t with armed := false }, true)

/-- `AVRTimer::AVRTimer()` (`SysTimer.h` revision): given the build
constant `SYST_MAX_TIMERS` and the shared static counter `_index`,
returns the constructed object and the updated counter.  The guard is
`_index + 1 <= SYST_MAX_TIMERS`; on success the object takes slot
`_index`, the counter is incremented, the object is stored in
`_AVRTimerTable[_current]` and `initTimer` programs the hardware; on
failure only `_valid = false` is written (a zombie). -/
def AVRTimer.construct (maxTimers : Nat) (idx : Nat) : SysTimerState × Nat :=
  if idx + 1 ≤ maxTimers then
    ({ platform := Platform.T_AVR, valid := true, current := (idx : Int) }, idx + 1)
  else
    ({ valid := false }, idx)

/-- `AVRTimer::attachInterrupt(isr, callbackArg)`: guarded by `_valid`;
stores both `_callback` and `_callbackArg`. -/
def AVRTimer.attachInterrupt (isr : Nat) (callbackArg : Nat)
    (t : SysTimerState) : SysTimerState × Bool :=
  if t.valid then
    ({ t with callback := some isr, callbackArg := callbackArg }, true)
  else
    (t, false)

/-- `AVRTimer::arm(repeat)`.  The middle component is the `uint16_t`
millisecond value the code passes to `setTimerInterval`
(`static_cast<uint16_t>(_interval)`), `none` when the guard fails.
The failure branch writes only `_armed = false`. -/
def AVRTimer.arm (rep : Bool) (t : SysTimerState) :
    SysTimerState × Option Nat × Bool :=
  if t.valid ∧ t.callback.isSome ∧ 0 < t.interval then
    let t1 :=
      if rep then { t with repeating := true, oneshot := false }
      else { t with repeating := false, oneshot := true }
    let t2 := { t1 with armed := true }
    (t2, some (t.interval % UINT16_MOD), t2.armed)
  else
    ({ t with armed := false }, none, false)

/-- `AVRTimer::disarm()`: guarded by `_valid`; calls `stopTimer` and
clears `_repeating`, `_oneshot`, `_armed`; callback, argument and
interval are untouched. -/
def AVRTimer.disarm (t : SysTimerState) : SysTimerState × Bool :=
  if t.valid then
    ({ t with repeating := false, oneshot := false, armed := false }, true)
  else
    (t, false)

/-- `SAMTimer::SAMTimer()` (`SysTimer.h` revision): same allocation
guard `_index + 1 <= SYST_MAX_TIMERS` as the AVR constructor. -/
def SAMTimer.construct (maxTimers : Nat) (idx : Nat) : SysTimerState × Nat :=
  if idx + 1 ≤ maxTimers then
    ({ platform := Platform.T_SAM, valid := true, current := (idx : Int) }, idx + 1)
  else
    ({ valid := false }, idx)

/-- `SAMTimer::SAMTimer()` (unnamed `part_001` revision): the guard
there is the strict `_count + 1 < SYST_MAX_TIMERS`. -/
def SAMTimer.constructP1 (maxTimers : Nat) (idx : Nat) : SysTimerState × Nat :=
  if idx + 1 < maxTimers then
    ({ platform := Platform.T_SAM, valid := true, current := (idx : Int) }, idx + 1)
  else
    ({ valid := false }, idx)

/-- `SAMTimer::attachInterrupt(isr, callbackArg)`: guarded by `_valid`;
stores both and attaches the shim ISR to the DueTimer object. -/
def SAMTimer.attachInterrupt (isr : Nat) (callbackArg : Nat)
    (t : SysTimerState) : SysTimerState × Bool :=
  if t.valid then
    ({ t with callback := some isr, callbackArg := callbackArg }, true)
  else
    (t, false)

/-- `SAMTimer::arm(repeat)`.  The middle component is the microsecond
value passed to `DueTimer::start`, i.e. the `uint32_t` product
`_interval * 1000` (`none` when the guard fails). -/
def SAMTimer.arm (rep : Bool) (t : SysTimerState) :
    SysTimerState × Option Nat × Bool :=
  if t.valid ∧ t.callback.isSome ∧ 0 < t.interval then
    let t1 :=
      if rep then { t with repeating := true, oneshot := false }
      else { t with repeating := false, oneshot := true }
    let t2 := { t1 with armed := true }
    (t2, some (t.interval * 1000 % UINT32_MOD), t2.armed)
  else
    ({ t with armed := false }, none, false)

/-- `SAMTimer::disarm()`: guarded by `_valid`; stops the DueTimer and
clears `_repeating`, `_oneshot`, `_armed`. -/
def SAMTimer.disarm (t : SysTimerState) : SysTimerState × Bool :=
  if t.valid then
    ({ t with repeating := false, oneshot := false, armed := false }, true)
  else
    (t, false)

/-- The shared AVR interrupt dispatcher `_AVRCommonHandler(that)`:
if `_repeating || _oneshot` it invokes `(*_callback)(_callbackArg)`;
then, if `_oneshot`, it clears `_oneshot` and calls `disarm()`.
The second component is the list of `(callback, argument)` invocations
performed, in order. -/
def AVRCommonHandler (t : SysTimerState) :
    SysTimerState × List (Option Nat × Nat) :=
  let fired := if t.repeating || t.oneshot then [(t.callback, t.callbackArg)] else []
  if t.oneshot then
    ((AVRTimer.disarm { t with oneshot := false }).1, fired)
  else
    (t, fired)

/-- The shared SAM interrupt dispatcher `_SAMCommonHandler(that)`:
identical flag logic to the AVR one, with the callback invocation
additionally bracketed by `noInterrupts()`/`interrupts()` (interrupt
masking, not modelled). -/
def SAMCommonHandler (t : SysTimerState) :
    SysTimerState × List (Option Nat × Nat) :=
  let fired := if t.repeating || t.oneshot then [(t.callback, t.callbackArg)] else []
  if t.oneshot then
    ((SAMTimer.disarm { t with oneshot := false }).1, fired)
  else
    (t, fired)

/-- Run a constructor `n` times against the shared allocation counter,
returning the constructed objects in order and the final counter. -/
def constructMany (ctor : Nat → SysTimerState × Nat) :
    Nat → Nat → List SysTimerState × Nat
  | 0, idx => ([], idx)
  | n + 1, idx =>
      let p := ctor idx
      let q := constructMany ctor n p.2
      (p.1 :: q.1, q.2)

/-- Truncation toward zero, the C cast from a floating value to an
integer type (in-range cases). -/
def ctrunc (q : ℚ) : Int :=
  if 0 ≤ q then ⌊q⌋ else ⌈q⌉

/-- The `MAX_INTERVAL` macro `(65535.0 * 1024.0) / F_CPU` (seconds),
exact-rational model of the `double` expression. -/
def MAX_INTERVAL (clockHz : Nat) : ℚ :=
  65535 * 1024 / (clockHz : ℚ)

/-- The Arduino `constrain(amt, low, high)` macro on integers. -/
def constrain (x lo hi : Nat) : Nat :=
  if x < lo then lo else if hi < x then hi else x

/-- The local `maximum` of `setTimerInterval`:
`static_cast<uint16_t>(MAX_INTERVAL * 1000.0)`, the largest accepted
millisecond interval. -/
def avrMaximumMs (clockHz : Nat) : Nat :=
  (ctrunc (MAX_INTERVAL clockHz * 1000)).toNat

/-- The compare-match value computed by `setTimerInterval(timerNum, msec)`
(`SysTimer.h` revision): clamp `msec` into `[1, maximum]`, convert to
seconds, divide by the tick period `1024 / F_CPU`, subtract one, and
cast the `double` to `uint16_t` (truncation).  Exact-rational model of
the `double` arithmetic. -/
def setTimerInterval (clockHz : Nat) (msec : Nat) : Nat :=
  let maximum := avrMaximumMs clockHz
  let elapsed : ℚ := (constrain msec 1 maximum : ℚ) / 1000
  let temp : ℚ := elapsed / (1024 / (clockHz : ℚ)) - 1
  (ctrunc temp).toNat

/-- Modelled from the spec (for comparison with `setTimerInterval`,
which is the code): the spec states the compare register is loaded with
`round(interval_seconds / (1024/clockHz)) - 1`. -/
def specCompareRegister (clockHz : Nat) (msec : Nat) : Int :=
  round (((constrain msec 1 (avrMaximumMs clockHz) : ℚ) / 1000)
    / (1024 / (clockHz : ℚ))) - 1

/-- Helper: the largest accepted AVR interval at the documented 16 MHz
system clock is 4194 ms. -/
theorem avrMaximumMs_16MHz : avrMaximumMs 16000000 = 4194 := by
  norm_num [avrMaximumMs, MAX_INTERVAL, ctrunc]
  try decide

/-- Helper: the exact-arithmetic core of the AVR encoder at 16 MHz.  For
an accepted interval `c ≥ 1` ms, the `double` pipeline
`(c/1000) / (1024/F_CPU) - 1` truncated to `uint16_t` equals
`⌊c * F_CPU / (1024 * 1000)⌋ - 1`. -/
theorem ctrunc_core (c : Nat) (hc : 1 ≤ c) :
    ((ctrunc ((c : ℚ) / 1000 / (1024 / (16000000 : ℚ)) - 1)).toNat : Int)
      = ⌊(c : ℚ) * 16000000 / (1024 * 1000)⌋ - 1 := by
  have hX : ((c : ℚ) / 1000 / (1024 / (16000000 : ℚ)))
      = (c : ℚ) * 16000000 / (1024 * 1000) := by
    field_simp
    ring
  have hc1 : (1 : ℚ) ≤ (c : ℚ) := by exact_mod_cast hc
  have hXeq : (c : ℚ) * 16000000 / (1024 * 1000) = (c : ℚ) * (125 / 8) := by
    ring
  have hX1 : (1 : ℚ) ≤ (c : ℚ) * 16000000 / (1024 * 1000) := by
    rw [hXeq]
    nlinarith
  have h0 : (0 : ℚ) ≤ (c : ℚ) * 16000000 / (1024 * 1000) - 1 := by linarith
  have floor1 : ⌊(c : ℚ) * 16000000 / (1024 * 1000) - 1⌋
      = ⌊(c : ℚ) * 16000000 / (1024 * 1000)⌋ - 1 := by
    have h := Int.floor_sub_int ((c : ℚ) * 16000000 / (1024 * 1000)) 1
    push_cast at h
    exact h
  have hfl : 1 ≤ ⌊(c : ℚ) * 16000000 / (1024 * 1000)⌋ := by
    rw [Int.le_floor]
    exact_mod_cast hX1
  rw [hX]
  unfold ctrunc
  rw [if_pos h0, floor1, Int.toNat_of_nonneg (by omega)]

/-- Concrete witness input: a valid timer with a callback and a
positive interval. -/
def tC1 : SysTimerState :=
  { valid := true, callback := some 1, interval := 10 }

/-- Concrete witness input: a valid timer armed one-shot. -/
def tC5 : SysTimerState :=
  { valid := true, armed := true, oneshot := true, callback := some 3,
    callbackArg := 9, interval := 10 }

/-- Concrete witness input: a valid timer armed repeating. -/
def tC6 : SysTimerState :=
  { valid := true, armed := true, repeating := true, callback := some 2,
    callbackArg := 4, interval := 7 }

/-- Concrete witness input: a valid ESP timer with a 2 ms interval. -/
def tC7a : SysTimerState :=
  { platform := Platform.T_ESP, valid := true, callback := some 1, interval := 2 }

/-- Concrete witness input: a valid ESP timer with a 7 ms interval. -/
def tC7b : SysTimerState :=
  { platform := Platform.T_ESP, valid := true, callback := some 1, interval := 7 }

/-- Concrete witness input: a valid timer with a callback and a
positive interval, for the disarm-then-dispatch scenario. -/
def tC9 : SysTimerState :=
  { valid := true, callback := some 1, interval := 3 }

/-- Concrete witness input: a valid timer armed repeating whose interval
was meanwhile set to 0. -/
def tC10 : SysTimerState :=
  { valid := true, armed := true, repeating := true, callback := some 1,
    interval := 0 }

/-- C1 (counterexample): on the ESP backend, a timer that is valid, has
an attached callback and `intervalMs = 10 > 0` nevertheless gets
`arm(false)` returning `false` with `armed()` false afterwards — the
claim that `arm(repeat)` succeeds for both values of `repeat` on every
such timer is false. -/
theorem C1_counterexample :
    ((setInterval 10 (ESPTimer.attachInterrupt 1 0 ESPTimer.construct).1).valid = true) ∧
    ((setInterval 10 (ESPTimer.attachInterrupt 1 0 ESPTimer.construct).1).callback.isSome = true) ∧
    (0 < (setInterval 10 (ESPTimer.attachInterrupt 1 0 ESPTimer.construct).1).interval) ∧
    ((ESPTimer.arm false (setInterval 10 (ESPTimer.attachInterrupt 1 0 ESPTimer.construct).1)).2.2 = false) ∧
    ((ESPTimer.arm false (setInterval 10 (ESPTimer.attachInterrupt 1 0 ESPTimer.construct).1)).1.armed = false) := by
  decide

/-- C1 (amended): for every valid timer with an attached callback and
`intervalMs > 0`, `arm(repeat)` on the AVR and SAM backends returns
`true` for both values of `repeat`, with `armed()` true and the
repeating flag equal to `repeat` afterwards; on the ESP backend this
holds for `repeat = true`, while `arm(false)` still programs the vendor
timer but records `armed = false` and returns `false`. -/
theorem C1_amended (t : SysTimerState) (rep : Bool)
    (hv : t.valid = true) (hcb : t.callback.isSome = true) (hi : 0 < t.interval) :
    ((AVRTimer.arm rep t).2.2 = true ∧ (AVRTimer.arm rep t).1.armed = true ∧
      (AVRTimer.arm rep t).1.repeating = rep) ∧
    ((SAMTimer.arm rep t).2.2 = true ∧ (SAMTimer.arm rep t).1.armed = true ∧
      (SAMTimer.arm rep t).1.repeating = rep) ∧
    ((ESPTimer.arm true t).2.2 = true ∧ (ESPTimer.arm true t).1.armed = true ∧
      (ESPTimer.arm true t).1.repeating = true) ∧
    ((ESPTimer.arm false t).2.2 = false ∧ (ESPTimer.arm false t).1.armed = false ∧
      (ESPTimer.arm false t).2.1 =
        some ((if 5 ≤ t.interval then t.interval else 5), false)) := by
  cases rep <;>
    simp [AVRTimer.arm, SAMTimer.arm, ESPTimer.arm, hv, hcb, hi]

/-- C1 (witness): the amended theorem applied at a concrete valid timer
with callback and interval 10. -/
theorem C1_witness :
    (AVRTimer.arm true tC1).2.2 = true ∧
    (SAMTimer.arm true tC1).1.repeating = true ∧
    (ESPTimer.arm false tC1).2.2 = false :=
  ⟨(C1_amended tC1 true rfl rfl (by decide)).1.1,
   (C1_amended tC1 true rfl rfl (by decide)).2.1.2.2,
   (C1_amended tC1 true rfl rfl (by decide)).2.2.2.1⟩

/-- C2 (code is wrong): on the AVR backend (16 MHz), after
`setInterval(100000)` and `arm(true)`, `getInterval()` still returns the
requested 100000 even though the representable maximum is 4194 ms and
the hardware encoder receives the `uint16_t` truncation 34464 and clamps
it to 4194 — the clamped value is never written back to `intervalMs`,
contradicting the README's statement that `getInterval` returns the
interval "with any adjustments applied". -/
theorem C2_clamp_not_stored :
    getInterval ((AVRTimer.arm true (setInterval 100000
      (AVRTimer.attachInterrupt 1 0 (AVRTimer.construct 1 0).1).1)).1) = 100000 ∧
    (AVRTimer.arm true (setInterval 100000
      (AVRTimer.attachInterrupt 1 0 (AVRTimer.construct 1 0).1).1)).2.1 = some 34464 ∧
    avrMaximumMs 16000000 = 4194 ∧
    constrain 34464 1 4194 = 4194 ∧
    (100000 : Nat) ≠ 4194 := by
  refine ⟨by decide, by decide, avrMaximumMs_16MHz, by decide, by decide⟩

/-- C3 (code is wrong in the `part_001` revision): with SAM capacity
`N = 9`, running the `part_001` constructor (guard
`_count + 1 < SYST_MAX_TIMERS`) ten times yields only 8 valid instances
and the counter sticks at 8, while the `SysTimer.h` constructor (guard
`_index + 1 <= SYST_MAX_TIMERS`) yields the claimed 9 valid instances
with slots 0..8 in order and the 10ᵗʰ a zombie. -/
theorem C3_offByOne :
    ((constructMany (SAMTimer.constructP1 9) 10 0).1.countP (·.valid) = 8) ∧
    ((constructMany (SAMTimer.construct 9) 10 0).1.countP (·.valid) = 9) ∧
    ((constructMany (SAMTimer.constructP1 9) 10 0).2 = 8) ∧
    ((constructMany (SAMTimer.construct 9) 10 0).2 = 9) ∧
    ((constructMany (SAMTimer.construct 9) 10 0).1.map (·.current) =
      [0, 1, 2, 3, 4, 5, 6, 7, 8, -1]) := by
  decide

/-- C4 (counterexample): the second construction on a capacity-1 AVR
build is a zombie (`valid() = false`), yet `setInterval(5)` on it
changes the value `getInterval()` returns from 0 to 5 — an observable
side effect of an operation on an invalid resource, so the claim that
every operation on an invalid resource is side-effect-free is false. -/
theorem C4_counterexample :
    ((AVRTimer.construct 1 1).1.valid = false) ∧
    (getInterval (AVRTimer.construct 1 1).1 = 0) ∧
    (getInterval (setInterval 5 (AVRTimer.construct 1 1).1) = 5) := by
  decide

/-- C4 (amended): on an invalid resource the fallible operations
`attachInterrupt`, `arm` and `disarm` of the AVR and SAM backends return
`false`; `attachInterrupt` and `disarm` leave the state unchanged and
`arm` writes only `armed := false` (so a never-armed invalid resource is
observably unchanged); `setInterval`, however, is not guarded: it stores
the requested value even on an invalid resource and `getInterval`
returns it. -/
theorem C4_amended (t : SysTimerState) (isr arg ms : Nat) (rep : Bool)
    (hv : t.valid = false) :
    AVRTimer.attachInterrupt isr arg t = (t, false) ∧
    AVRTimer.disarm t = (t, false) ∧
    AVRTimer.arm rep t = ({ t with armed := false }, none, false) ∧
    SAMTimer.attachInterrupt isr arg t = (t, false) ∧
    SAMTimer.disarm t = (t, false) ∧
    SAMTimer.arm rep t = ({ t with armed := false }, none, false) ∧
    (t.armed = false → (AVRTimer.arm rep t).1 = t ∧ (SAMTimer.arm rep t).1 = t) ∧
    getInterval (setInterval ms t) = ms % UINT32_MOD := by
  obtain ⟨p, v, a, i, r, o, cb, ca, cu⟩ := t
  simp only at hv
  subst hv
  refine ⟨?_, ?_, ?_, ?_, ?_, ?_, ?_, ?_⟩ <;>
    simp [AVRTimer.attachInterrupt, AVRTimer.disarm, AVRTimer.arm,
      SAMTimer.attachInterrupt, SAMTimer.disarm, SAMTimer.arm,
      setInterval, getInterval]

/-- C4 (witness): the amended theorem applied at the default-initialized
(invalid, never armed) state. -/
theorem C4_witness :
    AVRTimer.attachInterrupt 1 2 {} = (({} : SysTimerState), false) ∧
    getInterval (setInterval 7 ({} : SysTimerState)) = 7 % UINT32_MOD :=
  ⟨(C4_amended {} 1 2 7 true rfl).1,
   (C4_amended {} 1 2 7 true rfl).2.2.2.2.2.2.2⟩

/-- C5 (confirmed): for a valid resource with stored callback `cb`, the
shared dispatchers of the AVR and SAM backends behave as claimed: in the
armed one-shot state they invoke `(cb, callbackArgument)` exactly once,
clear the one-shot flag and perform the steps of `disarm()` (afterwards
`armed` is false); in the armed repeating state they invoke it exactly
once and leave the state — in particular the armed, repeating and
one-shot flags — unchanged. -/
theorem C5_dispatcher (t : SysTimerState) (cb : Nat)
    (hv : t.valid = true) (hcb : t.callback = some cb) :
    (t.armed = true → t.repeating = false → t.oneshot = true →
      AVRCommonHandler t =
        ({ t with oneshot := false, repeating := false, armed := false },
          [(some cb, t.callbackArg)]) ∧
      SAMCommonHandler t =
        ({ t with oneshot := false, repeating := false, armed := false },
          [(some cb, t.callbackArg)])) ∧
    (t.armed = true → t.repeating = true → t.oneshot = false →
      AVRCommonHandler t = (t, [(some cb, t.callbackArg)]) ∧
      SAMCommonHandler t = (t, [(some cb, t.callbackArg)])) := by
  constructor
  · intro _ hr ho
    simp [AVRCommonHandler, SAMCommonHandler, AVRTimer.disarm, SAMTimer.disarm,
      hv, hcb, hr, ho]
  · intro _ hr ho
    simp [AVRCommonHandler, SAMCommonHandler, hr, ho, hcb]

/-- C5 (witness): the dispatcher theorem applied at a concrete armed
one-shot state. -/
theorem C5_witness :
    AVRCommonHandler tC5 =
      ({ tC5 with oneshot := false, repeating := false, armed := false },
        [(some 3, 9)]) :=
  ((C5_dispatcher tC5 3 rfl rfl).1 rfl rfl rfl).1

/-- C6 (counterexample): an ESP timer armed repeating is non-invalid,
and `disarm()` returns `true` and clears `armed`, but `isRepeating()`
still returns `true` afterwards — `ESPTimer::disarm` never clears
`_repeating`, so the claim that `disarm` clears all three flags on every
non-invalid timer is false. -/
theorem C6_counterexample :
    ((ESPTimer.arm true (setInterval 10 (ESPTimer.attachInterrupt 1 0 ESPTimer.construct).1)).1.valid = true) ∧
    ((ESPTimer.disarm (ESPTimer.arm true (setInterval 10 (ESPTimer.attachInterrupt 1 0 ESPTimer.construct).1)).1).2 = true) ∧
    ((ESPTimer.disarm (ESPTimer.arm true (setInterval 10 (ESPTimer.attachInterrupt 1 0 ESPTimer.construct).1)).1).1.armed = false) ∧
    (isRepeating (ESPTimer.disarm (ESPTimer.arm true (setInterval 10 (ESPTimer.attachInterrupt 1 0 ESPTimer.construct).1)).1).1 = true) := by
  decide

/-- C6 (amended): for every non-invalid timer `disarm()` returns `true`
and clears `armed`, leaving the stored callback, callback argument and
`intervalMs` unchanged; on the AVR and SAM backends it also clears
`repeating` and `oneShotPending`, while on the ESP backend those two
flags retain their previous values. -/
theorem C6_amended (t : SysTimerState) (hv : t.valid = true) :
    AVRTimer.disarm t =
      ({ t with armed := false, repeating := false, oneshot := false }, true) ∧
    SAMTimer.disarm t =
      ({ t with armed := false, repeating := false, oneshot := false }, true) ∧
    ESPTimer.disarm t = ({ t with armed := false }, true) := by
  simp [AVRTimer.disarm, SAMTimer.disarm, ESPTimer.disarm, hv]

/-- C6 (witness): the amended theorem applied at a concrete valid timer
armed repeating. -/
theorem C6_witness :
    ESPTimer.disarm tC6 = ({ tC6 with armed := false }, true) ∧
    AVRTimer.disarm tC6 =
      ({ tC6 with armed := false, repeating := false, oneshot := false }, true) :=
  ⟨(C6_amended tC6 rfl).2.2, (C6_amended tC6 rfl).1⟩

/-- C7 (confirmed): on the ESP backend, whenever `arm` reaches the
vendor call (callback attached), a stored interval with
`0 < intervalMs < 5` is passed to `os_timer_arm` as 5 ms, and any
`intervalMs ≥ 5` is passed unchanged. -/
theorem C7_floor (t : SysTimerState) (rep : Bool)
    (hcb : t.callback.isSome = true) :
    (0 < t.interval → t.interval < 5 →
      (ESPTimer.arm rep t).2.1 = some (5, rep)) ∧
    (5 ≤ t.interval →
      (ESPTimer.arm rep t).2.1 = some (t.interval, rep)) := by
  constructor
  · intro h1 h2
    have h3 : ¬ (5 ≤ t.interval) := by omega
    simp [ESPTimer.arm, hcb, h1, h3]
  · intro h5
    have h1 : 0 < t.interval := by omega
    simp [ESPTimer.arm, hcb, h1, h5]

/-- C7 (witness): the floor theorem applied at concrete ESP timers with
intervals 2 and 7. -/
theorem C7_witness :
    (ESPTimer.arm true tC7a).2.1 = some (5, true) ∧
    (ESPTimer.arm true tC7b).2.1 = some (7, true) :=
  ⟨(C7_floor tC7a true rfl).1 (by decide) (by decide),
   (C7_floor tC7b true rfl).2 (by decide)⟩

/-- C8 (counterexample): at 16 MHz with requested interval 1 ms, the
code loads the compare register with 14 (truncation of
`15.625 - 1 = 14.625`), while the claimed formula
`round(interval_seconds / (1024/clockHz)) - 1 = round(15.625) - 1`
gives 15 — the claim's `round` does not match the code's truncating
cast. -/
theorem C8_counterexample :
    setTimerInterval 16000000 1 = 14 ∧
    specCompareRegister 16000000 1 = 15 ∧
    ((setTimerInterval 16000000 1 : Int) ≠ specCompareRegister 16000000 1) := by
  have h1 : setTimerInterval 16000000 1 = 14 := by
    norm_num [setTimerInterval, avrMaximumMs, MAX_INTERVAL, ctrunc, constrain]
    try decide
  have h2 : specCompareRegister 16000000 1 = 15 := by
    norm_num [specCompareRegister, avrMaximumMs, MAX_INTERVAL, ctrunc, constrain,
      round_eq]
  refine ⟨h1, h2, ?_⟩
  rw [h1, h2]
  decide

/-- C8 (amended): at the documented 16 MHz clock, the AVR interval
encoder clamps the requested millisecond interval into `[1, maxMs]`
with `maxMs = ⌊65535 * 1024 * 1000 / clockHz⌋ = 4194`, and loads the
compare-match register with `⌊interval_seconds / (1024/clockHz)⌋ - 1`
(truncation, not rounding). -/
theorem C8_amended (msec : Nat) :
    avrMaximumMs 16000000 = 65535 * 1024 * 1000 / 16000000 ∧
    1 ≤ constrain msec 1 (avrMaximumMs 16000000) ∧
    constrain msec 1 (avrMaximumMs 16000000) ≤ 4194 ∧
    (setTimerInterval 16000000 msec : Int) =
      ⌊(constrain msec 1 (avrMaximumMs 16000000) : ℚ) * 16000000 / (1024 * 1000)⌋ - 1 := by
  have hmax : avrMaximumMs 16000000 = 4194 := avrMaximumMs_16MHz
  have hb : 1 ≤ constrain msec 1 (avrMaximumMs 16000000) ∧
      constrain msec 1 (avrMaximumMs 16000000) ≤ 4194 := by
    rw [hmax]
    unfold constrain
    split_ifs <;> omega
  refine ⟨by rw [hmax], hb.1, hb.2, ?_⟩
  unfold setTimerInterval
  exact ctrunc_core (constrain msec 1 (avrMaximumMs 16000000)) hb.1

/-- C9 (confirmed): a valid timer with callback and positive interval is
armed with `arm(true)` and then disarmed; a subsequent dispatcher
invocation for its slot performs no callback invocation and leaves the
state unchanged — no further fire occurs after `disarm()`. -/
theorem C9_no_fire_after_disarm (t : SysTimerState)
    (hv : t.valid = true) (hcb : t.callback.isSome = true) (hi : 0 < t.interval) :
    (AVRCommonHandler (AVRTimer.disarm (AVRTimer.arm true t).1).1).2 = [] ∧
    (AVRCommonHandler (AVRTimer.disarm (AVRTimer.arm true t).1).1).1 =
      (AVRTimer.disarm (AVRTimer.arm true t).1).1 := by
  simp [AVRTimer.arm, AVRTimer.disarm, AVRCommonHandler, hv, hcb, hi]

/-- C9 (witness): the theorem applied at a concrete valid timer. -/
theorem C9_witness :
    (AVRCommonHandler (AVRTimer.disarm (AVRTimer.arm true tC9).1).1).2 = [] :=
  (C9_no_fire_after_disarm tC9 rfl rfl (by decide)).1

/-- C10 (confirmed): when `arm` is called on a valid timer whose
repeating flag is set but whose preconditions now fail (callback absent
or interval 0), the failure branch of the AVR and SAM `arm` writes only
`armed := false` and returns `false`; `isRepeating()` still returns
`true` afterwards. -/
theorem C10_failed_arm_keeps_repeating (t : SysTimerState) (rep : Bool)
    (_hv : t.valid = true) (hr : t.repeating = true)
    (hfail : t.callback = none ∨ t.interval = 0) :
    (AVRTimer.arm rep t = ({ t with armed := false }, none, false) ∧
      isRepeating (AVRTimer.arm rep t).1 = true) ∧
    (SAMTimer.arm rep t = ({ t with armed := false }, none, false) ∧
      isRepeating (SAMTimer.arm rep t).1 = true) := by
  have hcond : ¬(t.valid = true ∧ t.callback.isSome = true ∧ 0 < t.interval) := by
    rcases hfail with h | h <;> simp [h]
  simp [AVRTimer.arm, SAMTimer.arm, isRepeating, hcond, hr]

/-- C10 (witness): the theorem applied at a concrete armed repeating
timer whose interval was set to 0. -/
theorem C10_witness :
    AVRTimer.arm true tC10 = ({ tC10 with armed := false }, none, false) ∧
    isRepeating (AVRTimer.arm true tC10).1 = true :=
  (C10_failed_arm_keeps_repeating tC10 true rfl rfl (Or.inr rfl)).1
